import Mathlib

/-!
Shallow embedding of the beekeeper-updater-swarm deployer
(src/unnamed/part_001, package deployer): the image-reference parser,
the eligibility filter, the update-decision engine, the update-spec
builder and the reconciliation pass. Go strings are modelled as lists of
characters; Go's strings.Split with a one-character separator is
modelled by splitOnChar; the HTTP transport, the JSON decoder, the
orchestrator's ServiceUpdate call and the wall clock are abstracted as
function parameters.
-/

namespace Beekeeper

/-- Go strings are modelled as lists of characters. -/
abbrev Str := List Char

/-- Convert a Lean string literal into the model's string type. -/
def str (s : String) : Str := s.data

/-- Go strings.Split(s, sep) for a one-character separator sep: the
substrings between occurrences of sep, in order; Split("", sep) yields
[""]. The result is never empty. -/
def splitOnChar (c : Char) : Str → List Str
  | [] => [[]]
  | x :: xs =>
    match splitOnChar c xs with
    | [] => [[]]
    | r :: rs => if x = c then [] :: r :: rs else (x :: r) :: rs

/-- The swarm update-status states the code compares against; fresh
stands for the zero value and every state other than the three named
ones. -/
inductive UpdateState where
  | fresh
  | updating
  | paused
  | completed
  deriving DecidableEq

/-- swarm.ContainerSpec: the fields the deployer reads or writes (image)
plus representative untouched fields (labels, env) for the frame
property. -/
structure ContainerSpec where
  image : Str
  labels : Option (List (Str × Str))
  env : List Str
  deriving DecidableEq

/-- swarm.TaskSpec: the container spec plus a representative untouched
field. -/
structure TaskTemplate where
  containerSpec : ContainerSpec
  restartPolicy : Str
  deriving DecidableEq

/-- swarm.ReplicatedService: Replicas is a nullable pointer. -/
structure ReplicatedMode where
  replicas : Option Nat
  deriving DecidableEq

/-- swarm.ServiceMode: Replicated is a nullable pointer. -/
structure ServiceMode where
  replicated : Option ReplicatedMode
  deriving DecidableEq

/-- swarm.UpdateConfig: the fields the deployer writes (parallelism,
failure action) plus a representative untouched field (delay). -/
structure UpdateConfig where
  parallelism : Nat
  failureAction : Str
  delay : Nat
  deriving DecidableEq

/-- swarm.ServiceSpec: the top-level label map is nullable, as a Go map
is. -/
structure ServiceSpec where
  name : Str
  labels : Option (List (Str × Str))
  taskTemplate : TaskTemplate
  mode : ServiceMode
  updateConfig : UpdateConfig
  deriving DecidableEq

/-- swarm.UpdateStatus. -/
structure UpdateStatus where
  state : UpdateState
  deriving DecidableEq

/-- swarm.Service: identity, optimistic-concurrency version, spec and
live update status. -/
structure Service where
  id : Str
  version : Nat
  spec : ServiceSpec
  updateStatus : UpdateStatus
  deriving DecidableEq

/-- Reading key k from a Go string map: the zero value (the empty
string) when the key is absent. -/
def mapGet (m : List (Str × Str)) (k : Str) : Str :=
  match m with
  | [] => []
  | (k2, v) :: rest => if k2 = k then v else mapGet rest k

/-- Writing m[k] = v to a Go string map: overwrite the binding when the
key is present, add it otherwise. -/
def mapSet (m : List (Str × Str)) (k v : Str) : List (Str × Str) :=
  match m with
  | [] => [(k, v)]
  | (k2, v2) :: rest => if k2 = k then (k, v) :: rest else (k2, v2) :: mapSet rest k v

/-- Reading from a possibly-nil Go map: a nil map reads as empty. -/
def optGet (m : Option (List (Str × Str))) (k : Str) : Str :=
  match m with
  | none => []
  | some m2 => mapGet m2 k

/-- getRealDockerURL (src/unnamed/part_001 line 198): strings.Split on
the first at-sign, keeping the part before it. -/
def getRealDockerURL (dockerURL : Str) : Str :=
  (splitOnChar '@' dockerURL).headD []

/-- parseDockerURL (src/unnamed/part_001 lines 202-228): strip the
digest, split on the colon into exactly two parts, split the path on
slashes into two or three segments, dropping a leading registry host. -/
def parseDockerURL (dockerURL : Str) : Str × Str × Str :=
  match splitOnChar ':' (getRealDockerURL dockerURL) with
  | [pathPart, tagPart] =>
    match splitOnChar '/' pathPart with
    | [owner, repo] => (owner, repo, tagPart)
    | [_, owner, repo] => (owner, repo, tagPart)
    | _ => ([], [], [])
  | _ => ([], [], [])

/-- getUpdateParallelism (src/unnamed/part_001 lines 230-239). -/
def getUpdateParallelism (service : Service) : Nat :=
  match service.spec.mode.replicated with
  | none => 1
  | some replicated =>
    match replicated.replicas with
    | none => 1
    | some replicas => replicas / 10 + 1

/-- getCurrentDockerURL (src/unnamed/part_001 lines 241-243): the
container image with any digest suffix stripped. -/
def getCurrentDockerURL (service : Service) : Str :=
  getRealDockerURL service.spec.taskTemplate.containerSpec.image

/-- getLastDockerURL (src/unnamed/part_001 lines 253-258). -/
def getLastDockerURL (service : Service) : Str :=
  match service.spec.labels with
  | none => []
  | some labels => mapGet labels (str "octoblu.beekeeper.lastDockerURL")

/-- isUpdateInProcess (src/unnamed/part_001 lines 260-262). -/
def isUpdateInProcess (service : Service) : Bool :=
  decide (service.updateStatus.state = UpdateState.updating)

/-- didLastUpdatePass (src/unnamed/part_001 lines 264-269). -/
def didLastUpdatePass (service : Service) : Bool :=
  decide (service.updateStatus.state ≠ UpdateState.paused)

/-- doesDockerURLMatchCurrent (src/unnamed/part_001 lines 271-278). -/
def doesDockerURLMatchCurrent (dockerURL : Str) (service : Service) : Bool :=
  let currentDockerURL := getCurrentDockerURL service
  if currentDockerURL = [] then false
  else decide (dockerURL = currentDockerURL)

/-- doesDockerURLMatchLast (src/unnamed/part_001 lines 280-287). -/
def doesDockerURLMatchLast (dockerURL : Str) (service : Service) : Bool :=
  let lastDockerURL := getLastDockerURL service
  if lastDockerURL = [] then false
  else decide (dockerURL = lastDockerURL)

/-- shouldUpdateService (src/unnamed/part_001 lines 75-89): the three
rules in source order; the Go error result is always nil and is
omitted. -/
def shouldUpdateService (service : Service) : Bool :=
  if optGet service.spec.labels (str "octoblu.beekeeper.update") ≠ str "true" then false
  else if getCurrentDockerURL service = [] then false
  else if isUpdateInProcess service then false
  else true

/-- The outcome of updateService: a per-service error, no update
needed, or a deploy with the given docker URL. -/
inductive Decision where
  | error
  | noAction
  | update (dockerURL : Str)
  deriving DecidableEq

/-- The latest-version oracle, owner and repo to result:
getLatestDeployment with its transport abstracted. -/
abbrev Oracle := Str → Str → Except Unit Str

/-- The owner component parseDockerURL yields for the service's current
image. -/
def parsedOwner (service : Service) : Str :=
  (parseDockerURL (getCurrentDockerURL service)).1

/-- The repo component parseDockerURL yields for the service's current
image. -/
def parsedRepo (service : Service) : Str :=
  (parseDockerURL (getCurrentDockerURL service)).2.1

/-- updateService (src/unnamed/part_001 lines 91-117): parse the
current image, query the oracle, and decide; the deploy call the
update branch performs is modelled separately (processService). -/
def updateService (oracle : Oracle) (service : Service) : Decision :=
  let currentDockerURL := getCurrentDockerURL service
  let parsed := parseDockerURL currentDockerURL
  if parsed.1 = [] ∨ parsed.2.1 = [] then Decision.error
  else
    match oracle parsed.1 parsed.2.1 with
    | Except.error _ => Decision.error
    | Except.ok dockerURL =>
      if dockerURL = [] then Decision.noAction
      else if doesDockerURLMatchCurrent dockerURL service then Decision.noAction
      else if !didLastUpdatePass service && doesDockerURLMatchLast dockerURL service then
        Decision.noAction
      else Decision.update dockerURL

/-- deploy (src/unnamed/part_001 lines 119-142) as the pure service-spec
transformation it submits to ServiceUpdate: image, bookkeeping labels,
parallelism and failure action are set; currentDate stands for
time.Now().Format(time.RFC3339). -/
def deploy (service : Service) (dockerURL currentDate : Str) : ServiceSpec :=
  let spec := service.spec
  let labels0 := match spec.labels with
    | none => []
    | some m => m
  let labels1 :=
    mapSet (mapSet labels0 (str "octoblu.beekeeper.lastDockerURL") dockerURL)
      (str "octoblu.beekeeper.lastUpdatedAt") currentDate
  { spec with
    taskTemplate := { spec.taskTemplate with
      containerSpec := { spec.taskTemplate.containerSpec with image := dockerURL } }
    labels := some labels1
    updateConfig := { spec.updateConfig with
      parallelism := getUpdateParallelism service
      failureAction := str "pause" } }

/-- The transport outcome of http.Get together with reading the body:
a failure, or a status code with a fully read body. -/
inductive HttpResult where
  | failure
  | response (statusCode : Nat) (body : Str)

/-- getLatestDeployment (src/unnamed/part_001 lines 158-196) as a
function of the HTTP outcome; unmarshal stands for json.Unmarshal into
RequestMetadata followed by reading its docker_url field. -/
def getLatestDeployment (unmarshal : Str → Except Unit Str) (res : HttpResult) :
    Except Unit Str :=
  match res with
  | HttpResult.failure => Except.error ()
  | HttpResult.response statusCode body =>
    if statusCode ≠ 200 then Except.error ()
    else if body = [] then Except.ok []
    else
      match unmarshal body with
      | Except.error e => Except.error e
      | Except.ok dockerURL => Except.ok dockerURL

/-- One iteration of the Run loop (src/unnamed/part_001 lines 57-71)
for one service: skipped or nothing to do (ok none), a deploy submitted
and accepted (ok (some (id, url))), or a per-service error (error ());
serviceUpdate stands for dockerClient.ServiceUpdate. -/
def processService (oracle : Oracle)
    (serviceUpdate : Str → Nat → ServiceSpec → Except Unit Unit)
    (currentDate : Str) (service : Service) : Except Unit (Option (Str × Str)) :=
  if shouldUpdateService service then
    match updateService oracle service with
    | Decision.error => Except.error ()
    | Decision.noAction => Except.ok none
    | Decision.update dockerURL =>
      match serviceUpdate service.id service.version (deploy service dockerURL currentDate) with
      | Except.error e => Except.error e
      | Except.ok _ => Except.ok (some (service.id, dockerURL))
  else Except.ok none

/-- Run (src/unnamed/part_001 lines 46-73): a listing failure aborts
the pass; otherwise every service is processed in order, a per-service
error is only debug-logged (recorded here as that service's outcome)
and the pass itself returns success. -/
def Run (oracle : Oracle)
    (serviceUpdate : Str → Nat → ServiceSpec → Except Unit Unit)
    (currentDate : Str) (serviceList : Except Unit (List Service)) :
    Except Unit (List (Except Unit (Option (Str × Str)))) :=
  match serviceList with
  | Except.error e => Except.error e
  | Except.ok services =>
    Except.ok (services.map (processService oracle serviceUpdate currentDate))

/-- A paused service with full bookkeeping: label set opted in, last
attempted image 1.3.0, current image 1.2.0. -/
def svcPaused : Service :=
  { id := str "svc-paused"
    version := 7
    spec :=
      { name := str "widgets"
        labels := some [(str "octoblu.beekeeper.update", str "true"),
          (str "octoblu.beekeeper.lastDockerURL", str "acme/widgets:1.3.0")]
        taskTemplate :=
          { containerSpec := { image := str "acme/widgets:1.2.0", labels := none, env := [] }
            restartPolicy := str "any" }
        mode := { replicated := some { replicas := some 3 } }
        updateConfig := { parallelism := 1, failureAction := [], delay := 5 } }
    updateStatus := { state := UpdateState.paused } }

/-- An opted-in service in the zero update state with no bookkeeping
labels. -/
def svcIdle : Service :=
  { id := str "svc-idle"
    version := 2
    spec :=
      { name := str "widgets"
        labels := some [(str "octoblu.beekeeper.update", str "true")]
        taskTemplate :=
          { containerSpec := { image := str "acme/widgets:1.2.0", labels := none, env := [] }
            restartPolicy := str "any" }
        mode := { replicated := some { replicas := some 3 } }
        updateConfig := { parallelism := 1, failureAction := [], delay := 5 } }
    updateStatus := { state := UpdateState.fresh } }

/-- A paused, opted-in service whose lastDockerURL bookkeeping label is
absent. -/
def svcPausedNoLast : Service :=
  { id := str "svc-paused-no-last"
    version := 4
    spec :=
      { name := str "widgets"
        labels := some [(str "octoblu.beekeeper.update", str "true")]
        taskTemplate :=
          { containerSpec := { image := str "acme/widgets:1.2.0", labels := none, env := [] }
            restartPolicy := str "any" }
        mode := { replicated := some { replicas := some 10 } }
        updateConfig := { parallelism := 1, failureAction := [], delay := 5 } }
    updateStatus := { state := UpdateState.paused } }

/-- A replicated service with exactly ten replicas. -/
def svcTenReplicas : Service :=
  { id := str "svc-ten"
    version := 1
    spec :=
      { name := str "widgets"
        labels := some [(str "octoblu.beekeeper.update", str "true")]
        taskTemplate :=
          { containerSpec := { image := str "acme/widgets:1.2.0", labels := none, env := [] }
            restartPolicy := str "any" }
        mode := { replicated := some { replicas := some 10 } }
        updateConfig := { parallelism := 1, failureAction := [], delay := 5 } }
    updateStatus := { state := UpdateState.fresh } }

/-- Looking up the key just written overwrites any earlier binding. -/
theorem mapGet_mapSet_same (m : List (Str × Str)) (k v : Str) :
    mapGet (mapSet m k v) k = v := by
  induction m with
  | nil => simp [mapSet, mapGet]
  | cons p rest ih =>
    obtain ⟨k2, v2⟩ := p
    by_cases h : k2 = k
    · simp [mapSet, h, mapGet]
    · simp [mapSet, h, mapGet, ih]

/-- Writing one key leaves every other key's value unchanged. -/
theorem mapGet_mapSet_diff (m : List (Str × Str)) (k v k2 : Str) (h : k2 ≠ k) :
    mapGet (mapSet m k v) k2 = mapGet m k2 := by
  induction m with
  | nil => simp [mapSet, mapGet, Ne.symm h]
  | cons p rest ih =>
    obtain ⟨k3, v3⟩ := p
    by_cases h3 : k3 = k
    · subst h3
      simp [mapSet, mapGet, Ne.symm h]
    · by_cases h32 : k3 = k2
      · simp [mapSet, h3, mapGet, h32, h]
      · simp [mapSet, h3, mapGet, h32, ih, h]

/-- splitOnChar never yields the empty list. -/
theorem splitOnChar_ne_nil (c : Char) (s : Str) : splitOnChar c s ≠ [] := by
  cases s with
  | nil => simp [splitOnChar]
  | cons x xs =>
    simp only [splitOnChar]
    cases h : splitOnChar c xs with
    | nil => simp
    | cons r rs => by_cases hx : x = c <;> simp [hx]

/-- The part before the first occurrence of the separator does not
contain the separator. -/
theorem not_mem_splitOnChar_headD (c : Char) (s : Str) :
    c ∉ (splitOnChar c s).headD [] := by
  induction s with
  | nil => simp [splitOnChar]
  | cons x xs ih =>
    simp only [splitOnChar]
    cases h : splitOnChar c xs with
    | nil => simp
    | cons r rs =>
      rw [h] at ih
      by_cases hx : x = c
      · simp [hx]
      · simp only [List.headD] at ih ⊢
        simp only [hx, if_false, List.mem_cons, not_or]
        exact ⟨fun he => hx he.symm, ih⟩

/-- Splitting a string that does not contain the separator yields the
string alone. -/
theorem splitOnChar_of_not_mem (c : Char) (s : Str) (h : c ∉ s) :
    splitOnChar c s = [s] := by
  induction s with
  | nil => simp [splitOnChar]
  | cons x xs ih =>
    simp only [List.mem_cons, not_or] at h
    simp only [splitOnChar, ih h.2]
    simp [Ne.symm h.1]

/-- Stripping the digest suffix is idempotent. -/
theorem getRealDockerURL_idem (s : Str) :
    getRealDockerURL (getRealDockerURL s) = getRealDockerURL s := by
  unfold getRealDockerURL
  rw [splitOnChar_of_not_mem '@' _ (not_mem_splitOnChar_headD '@' s)]
  simp

/-- When the current image parses and the oracle answers ans, the
decision of updateService is the source's four-way comparison on ans. -/
theorem updateService_eq (oracle : Oracle) (service : Service) (ans : Str)
    (howner : parsedOwner service ≠ [])
    (hrepo : parsedRepo service ≠ [])
    (horacle : oracle (parsedOwner service) (parsedRepo service) = Except.ok ans) :
    updateService oracle service =
      (if ans = [] then Decision.noAction
       else if doesDockerURLMatchCurrent ans service then Decision.noAction
       else if !didLastUpdatePass service && doesDockerURLMatchLast ans service then
         Decision.noAction
       else Decision.update ans) := by
  unfold parsedOwner parsedRepo at horacle
  unfold updateService
  rw [if_neg (by push_neg; exact ⟨howner, hrepo⟩), horacle]

/-- A service whose image parses into a non-empty owner has a non-empty
current docker URL. -/
theorem currentDockerURL_ne_nil (service : Service)
    (howner : parsedOwner service ≠ []) : getCurrentDockerURL service ≠ [] := by
  intro h
  apply howner
  simp [parsedOwner, h, parseDockerURL, getRealDockerURL, splitOnChar]

/-- C1: for a service in the paused state whose lastDockerURL
bookkeeping label is X and whose current image parses, an oracle answer
of X yields NoAction, and an oracle answer Y that is non-empty, differs
from X and differs from the current image yields Update(Y). -/
theorem C1_failure_loop (service : Service) (oracle : Oracle) (X Y : Str)
    (howner : parsedOwner service ≠ [])
    (hrepo : parsedRepo service ≠ [])
    (hpaused : service.updateStatus.state = UpdateState.paused)
    (hlast : getLastDockerURL service = X) :
    (oracle (parsedOwner service) (parsedRepo service) = Except.ok X →
      updateService oracle service = Decision.noAction) ∧
    (oracle (parsedOwner service) (parsedRepo service) = Except.ok Y →
      Y ≠ [] → Y ≠ X → Y ≠ getCurrentDockerURL service →
      updateService oracle service = Decision.update Y) := by
  constructor
  · intro horacle
    rw [updateService_eq oracle service X howner hrepo horacle]
    by_cases hX : X = []
    · simp [hX]
    · by_cases hXc : X = getCurrentDockerURL service
      · simp [hX, doesDockerURLMatchCurrent, hXc,
          currentDockerURL_ne_nil service howner]
      · simp [hX, doesDockerURLMatchCurrent, hXc, didLastUpdatePass, hpaused,
          doesDockerURLMatchLast, hlast]
  · intro horacle hY hYX hYcur
    rw [updateService_eq oracle service Y howner hrepo horacle]
    simp [hY, doesDockerURLMatchCurrent, hYcur, doesDockerURLMatchLast, hlast, hYX]

/-- Witness for C1 at a concrete paused service: oracle answering the
bookkept image 1.3.0 yields NoAction, oracle answering 1.4.0 yields
Update. -/
theorem C1_failure_loop_witness :
    updateService (fun _ _ => Except.ok (str "acme/widgets:1.3.0")) svcPaused =
      Decision.noAction ∧
    updateService (fun _ _ => Except.ok (str "acme/widgets:1.4.0")) svcPaused =
      Decision.update (str "acme/widgets:1.4.0") :=
  ⟨(C1_failure_loop svcPaused (fun _ _ => Except.ok (str "acme/widgets:1.3.0"))
      (str "acme/widgets:1.3.0") (str "acme/widgets:1.4.0")
      (by decide) (by decide) rfl (by decide)).1 rfl,
   (C1_failure_loop svcPaused (fun _ _ => Except.ok (str "acme/widgets:1.4.0"))
      (str "acme/widgets:1.3.0") (str "acme/widgets:1.4.0")
      (by decide) (by decide) rfl (by decide)).2 rfl (by decide) (by decide) (by decide)⟩

/-- C2 counterexample: the oracle's answer carries a digest suffix, so
it equals the current image once both are digest-stripped, yet the
decision is Update, not NoAction: the code digest-strips only the
current image, never the oracle's answer. -/
theorem C2_counterexample :
    getRealDockerURL (str "acme/widgets:1.2.0@sha256:deadbeef") =
      getRealDockerURL svcIdle.spec.taskTemplate.containerSpec.image ∧
    updateService (fun _ _ => Except.ok (str "acme/widgets:1.2.0@sha256:deadbeef"))
      svcIdle = Decision.update (str "acme/widgets:1.2.0@sha256:deadbeef") := by
  decide

/-- C2 as amended: when the oracle's answer, compared verbatim, equals
the service's current image with the digest stripped, the decision is
NoAction, whatever the update-status state. -/
theorem C2_idempotence (service : Service) (oracle : Oracle)
    (howner : parsedOwner service ≠ [])
    (hrepo : parsedRepo service ≠ [])
    (horacle : oracle (parsedOwner service) (parsedRepo service) =
      Except.ok (getCurrentDockerURL service)) :
    updateService oracle service = Decision.noAction := by
  rw [updateService_eq oracle service (getCurrentDockerURL service) howner hrepo horacle]
  simp [currentDockerURL_ne_nil service howner, doesDockerURLMatchCurrent]

/-- Witness for the amended C2 at a concrete paused service. -/
theorem C2_idempotence_witness :
    updateService (fun _ _ => Except.ok (str "acme/widgets:1.2.0")) svcPaused =
      Decision.noAction :=
  C2_idempotence svcPaused (fun _ _ => Except.ok (str "acme/widgets:1.2.0"))
    (by decide) (by decide) rfl

/-- Parsing ignores any digest suffix. -/
theorem parseDockerURL_strip (s : Str) :
    parseDockerURL s = parseDockerURL (getRealDockerURL s) := by
  unfold parseDockerURL
  rw [getRealDockerURL_idem]

/-- A string whose colon split is not exactly two parts parses to the
all-empty triple. -/
theorem parseDockerURL_not_two (s : Str)
    (h : (splitOnChar ':' (getRealDockerURL s)).length ≠ 2) :
    parseDockerURL s = ([], [], []) := by
  unfold parseDockerURL
  rcases hs : splitOnChar ':' (getRealDockerURL s) with _ | ⟨a, _ | ⟨b, _ | ⟨c, rest⟩⟩⟩ <;>
    simp [hs] at h ⊢

/-- A string whose path part does not split into two or three slash
segments parses to the all-empty triple. -/
theorem parseDockerURL_bad_path (s pathPart tagPart : Str)
    (hs : splitOnChar ':' (getRealDockerURL s) = [pathPart, tagPart])
    (h2 : (splitOnChar '/' pathPart).length ≠ 2)
    (h3 : (splitOnChar '/' pathPart).length ≠ 3) :
    parseDockerURL s = ([], [], []) := by
  unfold parseDockerURL
  rw [hs]
  rcases hp : splitOnChar '/' pathPart with _ | ⟨a, _ | ⟨b, _ | ⟨c, _ | ⟨d, rest⟩⟩⟩⟩ <;>
    simp [hp] at h2 h3 ⊢

/-- C3: the parser strips the digest before anything else, maps the
claim's three concrete shapes to the stated triples, and yields the
all-empty triple when the colon split is not exactly two parts or the
path does not split into two or three slash segments. -/
theorem C3_parse :
    parseDockerURL (str "owner/repo:tag") = (str "owner", str "repo", str "tag") ∧
    parseDockerURL (str "registry.example.com/owner/repo:tag") =
      (str "owner", str "repo", str "tag") ∧
    parseDockerURL (str "owner/repo:tag@sha256:deadbeef") =
      parseDockerURL (str "owner/repo:tag") ∧
    (∀ s : Str, parseDockerURL s = parseDockerURL (getRealDockerURL s)) ∧
    (∀ s : Str, (splitOnChar ':' (getRealDockerURL s)).length ≠ 2 →
      parseDockerURL s = ([], [], [])) ∧
    (∀ s pathPart tagPart : Str,
      splitOnChar ':' (getRealDockerURL s) = [pathPart, tagPart] →
      (splitOnChar '/' pathPart).length ≠ 2 →
      (splitOnChar '/' pathPart).length ≠ 3 →
      parseDockerURL s = ([], [], [])) :=
  ⟨by decide, by decide, by decide, parseDockerURL_strip, parseDockerURL_not_two,
    parseDockerURL_bad_path⟩

/-- C4: eligibility holds exactly when the opt-in label is the literal
"true", the current image is non-empty and the state is not updating;
a service missing the label, or one in the updating state, is never
selected. -/
theorem C4_eligibility :
    (∀ service : Service, shouldUpdateService service = true ↔
      (optGet service.spec.labels (str "octoblu.beekeeper.update") = str "true" ∧
        getCurrentDockerURL service ≠ [] ∧
        service.updateStatus.state ≠ UpdateState.updating)) ∧
    (∀ service : Service,
      optGet service.spec.labels (str "octoblu.beekeeper.update") ≠ str "true" →
      shouldUpdateService service = false) ∧
    (∀ service : Service, service.updateStatus.state = UpdateState.updating →
      shouldUpdateService service = false) := by
  have main : ∀ service : Service, shouldUpdateService service = true ↔
      (optGet service.spec.labels (str "octoblu.beekeeper.update") = str "true" ∧
        getCurrentDockerURL service ≠ [] ∧
        service.updateStatus.state ≠ UpdateState.updating) := by
    intro service
    unfold shouldUpdateService isUpdateInProcess
    split_ifs with h1 h2 h3 <;> simp_all
  refine ⟨main, fun s h => ?_, fun s h => ?_⟩
  · cases hb : shouldUpdateService s with
    | false => rfl
    | true => exact absurd ((main s).mp hb).1 h
  · cases hb : shouldUpdateService s with
    | false => rfl
    | true => exact absurd h ((main s).mp hb).2.2

/-- C5: a listing failure aborts the whole pass; a successful listing
always ends in a successful pass whose outcome list processes every
service, and a per-service error leaves the rest of the pass and its
success untouched. -/
theorem C5_failure_isolation :
    (∀ (oracle : Oracle) (serviceUpdate : Str → Nat → ServiceSpec → Except Unit Unit)
        (currentDate : Str),
      Run oracle serviceUpdate currentDate (Except.error ()) = Except.error ()) ∧
    (∀ (oracle : Oracle) (serviceUpdate : Str → Nat → ServiceSpec → Except Unit Unit)
        (currentDate : Str) (services : List Service),
      Run oracle serviceUpdate currentDate (Except.ok services) =
        Except.ok (services.map (processService oracle serviceUpdate currentDate))) ∧
    (∀ (oracle : Oracle) (serviceUpdate : Str → Nat → ServiceSpec → Except Unit Unit)
        (currentDate : Str) (service : Service) (rest : List Service),
      processService oracle serviceUpdate currentDate service = Except.error () →
      Run oracle serviceUpdate currentDate (Except.ok (service :: rest)) =
        Except.ok (Except.error () ::
          rest.map (processService oracle serviceUpdate currentDate))) :=
  ⟨fun _ _ _ => rfl, fun _ _ _ _ => rfl,
    fun oracle serviceUpdate currentDate service rest herr => by
      simp [Run, herr]⟩

/-- C6: rollout parallelism is replicas / 10 + 1 by integer division
for a defined replicated mode and 1 otherwise; counts 1-9 give 1,
10-19 give 2, 95 gives 10. -/
theorem C6_parallelism :
    (∀ (service : Service) (replicas : Nat),
      service.spec.mode.replicated = some { replicas := some replicas } →
      getUpdateParallelism service = replicas / 10 + 1) ∧
    (∀ service : Service, service.spec.mode.replicated = none →
      getUpdateParallelism service = 1) ∧
    (∀ service : Service, service.spec.mode.replicated = some { replicas := none } →
      getUpdateParallelism service = 1) ∧
    (∀ (service : Service) (replicas : Nat),
      service.spec.mode.replicated = some { replicas := some replicas } →
      1 ≤ replicas → replicas ≤ 9 → getUpdateParallelism service = 1) ∧
    (∀ (service : Service) (replicas : Nat),
      service.spec.mode.replicated = some { replicas := some replicas } →
      10 ≤ replicas → replicas ≤ 19 → getUpdateParallelism service = 2) ∧
    (∀ service : Service, service.spec.mode.replicated = some { replicas := some 95 } →
      getUpdateParallelism service = 10) := by
  have base : ∀ (service : Service) (replicas : Nat),
      service.spec.mode.replicated = some { replicas := some replicas } →
      getUpdateParallelism service = replicas / 10 + 1 := by
    intro service replicas h
    unfold getUpdateParallelism
    rw [h]
  refine ⟨base, ?_, ?_, ?_, ?_, ?_⟩
  · intro s h
    unfold getUpdateParallelism
    rw [h]
  · intro s h
    unfold getUpdateParallelism
    rw [h]
  · intro s r h h1 h9
    rw [base s r h]
    omega
  · intro s r h h10 h19
    rw [base s r h]
    omega
  · intro s h
    rw [base s 95 h]

/-- C7 counterexample: at ten replicas the code computes parallelism 2,
while ceil(10 / 10) with a minimum of 1 is 1. -/
theorem C7_counterexample :
    svcTenReplicas.spec.mode.replicated = some { replicas := some 10 } ∧
    max ((10 + 10 - 1) / 10) 1 = 1 ∧
    getUpdateParallelism svcTenReplicas = 2 := by
  decide

/-- C7 as amended: for a defined replicated mode the parallelism is
replicas / 10 + 1 by integer division, which is at least 1 and agrees
with ceil(replicas / 10) exactly when replicas is not a multiple of
10 — at every multiple of 10 the computed value differs from the
ceiling. -/
theorem C7_parallelism_formula (service : Service) (replicas : Nat)
    (h : service.spec.mode.replicated = some { replicas := some replicas }) :
    getUpdateParallelism service = replicas / 10 + 1 ∧
    1 ≤ getUpdateParallelism service ∧
    (getUpdateParallelism service = (replicas + 9) / 10 ↔ ¬ (10 ∣ replicas)) := by
  have base : getUpdateParallelism service = replicas / 10 + 1 := by
    unfold getUpdateParallelism
    rw [h]
  refine ⟨base, by rw [base]; omega, by rw [base]; omega⟩

/-- Witness for the amended C7 at the ten-replica service. -/
theorem C7_parallelism_formula_witness :
    getUpdateParallelism svcTenReplicas = 10 / 10 + 1 ∧
    1 ≤ getUpdateParallelism svcTenReplicas ∧
    (getUpdateParallelism svcTenReplicas = (10 + 9) / 10 ↔ ¬ (10 ∣ 10)) :=
  C7_parallelism_formula svcTenReplicas 10 rfl

/-- C8: the built update spec sets exactly the container image, the two
bookkeeping labels (creating the label set when nil), the failure
action "pause" and the replica-derived parallelism; every other
modelled field of the spec, and every other label, is unchanged. -/
theorem C8_deploy_frame (service : Service) (dockerURL currentDate : Str) :
    (deploy service dockerURL currentDate).taskTemplate.containerSpec.image = dockerURL ∧
    (deploy service dockerURL currentDate).labels.isSome = true ∧
    optGet (deploy service dockerURL currentDate).labels
      (str "octoblu.beekeeper.lastDockerURL") = dockerURL ∧
    optGet (deploy service dockerURL currentDate).labels
      (str "octoblu.beekeeper.lastUpdatedAt") = currentDate ∧
    (deploy service dockerURL currentDate).updateConfig.failureAction = str "pause" ∧
    (deploy service dockerURL currentDate).updateConfig.parallelism =
      getUpdateParallelism service ∧
    (deploy service dockerURL currentDate).name = service.spec.name ∧
    (deploy service dockerURL currentDate).mode = service.spec.mode ∧
    (deploy service dockerURL currentDate).taskTemplate.restartPolicy =
      service.spec.taskTemplate.restartPolicy ∧
    (deploy service dockerURL currentDate).taskTemplate.containerSpec.labels =
      service.spec.taskTemplate.containerSpec.labels ∧
    (deploy service dockerURL currentDate).taskTemplate.containerSpec.env =
      service.spec.taskTemplate.containerSpec.env ∧
    (deploy service dockerURL currentDate).updateConfig.delay =
      service.spec.updateConfig.delay ∧
    (∀ k : Str, k ≠ str "octoblu.beekeeper.lastDockerURL" →
      k ≠ str "octoblu.beekeeper.lastUpdatedAt" →
      optGet (deploy service dockerURL currentDate).labels k =
        optGet service.spec.labels k) := by
  have hkeys : str "octoblu.beekeeper.lastDockerURL" ≠ str "octoblu.beekeeper.lastUpdatedAt" := by
    decide
  refine ⟨rfl, rfl, ?_, ?_, rfl, rfl, rfl, rfl, rfl, rfl, rfl, rfl, ?_⟩
  · show optGet (some _) _ = _
    simp only [optGet]
    rw [mapGet_mapSet_diff _ _ _ _ hkeys, mapGet_mapSet_same]
  · show optGet (some _) _ = _
    simp only [optGet]
    rw [mapGet_mapSet_same]
  · intro k hk1 hk2
    show optGet (some _) _ = _
    simp only [optGet]
    rw [mapGet_mapSet_diff _ _ _ _ hk2, mapGet_mapSet_diff _ _ _ _ hk1]
    cases h : service.spec.labels with
    | none => simp [deploy, h, optGet, mapGet]
    | some m => simp [deploy, h, optGet]

/-- C9: the latest-version lookup errs exactly on transport failure, a
non-200 status, or a non-empty body the decoder rejects; a 200 with an
empty body yields the empty reference without error, and the decision
engine maps an empty oracle answer to NoAction. -/
theorem C9_latest_lookup :
    (∀ unmarshal : Str → Except Unit Str,
      getLatestDeployment unmarshal HttpResult.failure = Except.error ()) ∧
    (∀ (unmarshal : Str → Except Unit Str) (statusCode : Nat) (body : Str),
      statusCode ≠ 200 →
      getLatestDeployment unmarshal (HttpResult.response statusCode body) =
        Except.error ()) ∧
    (∀ unmarshal : Str → Except Unit Str,
      getLatestDeployment unmarshal (HttpResult.response 200 []) = Except.ok []) ∧
    (∀ (unmarshal : Str → Except Unit Str) (body : Str) (e : Unit),
      body ≠ [] → unmarshal body = Except.error e →
      getLatestDeployment unmarshal (HttpResult.response 200 body) = Except.error e) ∧
    (∀ (unmarshal : Str → Except Unit Str) (body dockerURL : Str),
      body ≠ [] → unmarshal body = Except.ok dockerURL →
      getLatestDeployment unmarshal (HttpResult.response 200 body) =
        Except.ok dockerURL) ∧
    (∀ (service : Service) (oracle : Oracle),
      parsedOwner service ≠ [] → parsedRepo service ≠ [] →
      oracle (parsedOwner service) (parsedRepo service) = Except.ok [] →
      updateService oracle service = Decision.noAction) := by
  refine ⟨fun _ => rfl, ?_, fun _ => rfl, ?_, ?_, ?_⟩
  · intro unmarshal statusCode body h
    simp [getLatestDeployment, h]
  · intro unmarshal body e hb hu
    simp [getLatestDeployment, hb, hu]
  · intro unmarshal body dockerURL hb hu
    simp [getLatestDeployment, hb, hu]
  · intro service oracle howner hrepo horacle
    rw [updateService_eq oracle service [] howner hrepo horacle]
    simp

/-- C10: for an eligible paused service with no lastDockerURL
bookkeeping, the already-tried guard never fires: a non-empty oracle
answer that differs from the current image always yields Update. -/
theorem C10_no_bookkeeping (service : Service) (oracle : Oracle) (Y : Str)
    (helig : shouldUpdateService service = true)
    (howner : parsedOwner service ≠ [])
    (hrepo : parsedRepo service ≠ [])
    (hpaused : service.updateStatus.state = UpdateState.paused)
    (hlast : getLastDockerURL service = [])
    (horacle : oracle (parsedOwner service) (parsedRepo service) = Except.ok Y)
    (hY : Y ≠ []) (hYcur : Y ≠ getCurrentDockerURL service) :
    updateService oracle service = Decision.update Y := by
  rw [updateService_eq oracle service Y howner hrepo horacle]
  simp [hY, doesDockerURLMatchCurrent, hYcur, doesDockerURLMatchLast, hlast]

/-- Witness for C10 at a concrete paused service without bookkeeping. -/
theorem C10_no_bookkeeping_witness :
    updateService (fun _ _ => Except.ok (str "acme/widgets:1.4.0")) svcPausedNoLast =
      Decision.update (str "acme/widgets:1.4.0") :=
  C10_no_bookkeeping svcPausedNoLast
    (fun _ _ => Except.ok (str "acme/widgets:1.4.0")) (str "acme/widgets:1.4.0")
    (by decide) (by decide) (by decide) rfl rfl rfl (by decide) (by decide)

end Beekeeper
